import Mathlib

/-!
Shallow embedding of `src/main.rs` (an Arti onion-service HTTP endpoint).

The program is a dispatcher loop (`main`, lines 62-87) pulling `StreamRequest`s
from `handle_rend_requests`, spawning one tokio task per request, and a
per-request pipeline (`handle_stream_request`, lines 89-129): a match on the
incoming request whose `Begin` arm is guarded by `port == 80 || port == 443`,
then `accept(...).unwrap()`, `tls_acceptor.accept(...).unwrap()`, hyper
`serve_connection_with_upgrades` (its error only logged), and a default arm
that logs and calls `shutdown_circuit()?`.

The embedding records the externally visible actions of one connection as an
event list, models `.unwrap()` on an `Err` as a panic terminating the task
(caught at the tokio task boundary, as tokio does for spawned tasks), and
models the transport source as a finite list of requests, each paired with the
outcomes its environment would give to the fallible calls.
-/

namespace ArtiTls

/-- The incoming request carried by a `StreamRequest`
(`tor_proto::stream::IncomingStreamRequest`): a `Begin` with a declared
destination port, a directory request, or anything else. -/
inductive IncomingStreamRequest where
  | begin (port : Nat)
  | beginDir
  | other
deriving DecidableEq, Repr

/-- Outcomes the external world gives to the four fallible calls made for one
connection: `stream_request.accept`, `tls_acceptor.accept`,
`serve_connection_with_upgrades`, and `shutdown_circuit`. -/
structure ConnEnv where
  acceptOk : Bool
  tlsOk : Bool
  serveOk : Bool
  shutdownOk : Bool
deriving DecidableEq, Repr

/-- Observable actions of the program, in source order. `gateEval b` records
the match guard `begin.port() == 80 || begin.port() == 443` (line 91)
evaluating to `b`; the `log*` events are the `eprintln!` calls; `acceptCall`,
`tlsCall`, `serveCall`, `rejectCall` are the invocations of
`stream_request.accept` (line 93), `tls_acceptor.accept` (line 99),
`serve_connection_with_upgrades` (line 116) and `shutdown_circuit` (line 124);
the last four events belong to the `main` loop (lines 68, 70, 85, 86). -/
inductive Event where
  | gateEval (ok : Bool)
  | logBegin
  | acceptCall
  | logOnionStream
  | tlsCall
  | logTlsStream
  | serveCall
  | logServeError
  | logRejecting
  | rejectCall
  | logReceived
  | spawnTask
  | dropService
  | logExited
deriving DecidableEq, Repr

/-- The two `.unwrap()` sites inside `handle_stream_request` that turn an
`Err` into a panic: line 93 (accept) and line 99 (TLS handshake). -/
inductive PanicSite where
  | acceptUnwrap
  | tlsUnwrap
deriving DecidableEq, Repr

/-- How one call of `handle_stream_request` ends: returning `Ok(())`,
returning the `Err` propagated from `shutdown_circuit()?` (line 124), or
panicking at one of the two unwrap sites. -/
inductive HandleOutcome where
  | ok
  | errShutdown
  | panicked (site : PanicSite)
deriving DecidableEq, Repr

/-- The match guard of line 91: the declared port is 80 or 443. -/
def port_gate (p : Nat) : Bool :=
  p == 80 || p == 443

/-- Whether a request matches the guarded `Begin` arm of the match on line 90:
a `Begin` whose declared port passes the port gate. -/
def admitted : IncomingStreamRequest → Bool
  | .begin p => port_gate p
  | _ => false

/-- The default arm of the match (lines 122-125): log the rejection, call
`shutdown_circuit()`, and propagate its error with `?`. -/
def reject_path (env : ConnEnv) : List Event × HandleOutcome :=
  ([Event.logRejecting, Event.rejectCall],
    if env.shutdownOk then HandleOutcome.ok else HandleOutcome.errShutdown)

/-- The body of the guarded `Begin` arm (lines 92-120): log, accept (unwrap),
log, TLS handshake (unwrap), log, serve; a serve error is only logged and the
arm still falls through to `Ok(())` on line 128. -/
def accepted_pipeline (env : ConnEnv) : List Event × HandleOutcome :=
  if env.acceptOk = false then
    ([Event.logBegin, Event.acceptCall], HandleOutcome.panicked PanicSite.acceptUnwrap)
  else if env.tlsOk = false then
    ([Event.logBegin, Event.acceptCall, Event.logOnionStream, Event.tlsCall],
      HandleOutcome.panicked PanicSite.tlsUnwrap)
  else if env.serveOk then
    ([Event.logBegin, Event.acceptCall, Event.logOnionStream, Event.tlsCall,
      Event.logTlsStream, Event.serveCall], HandleOutcome.ok)
  else
    ([Event.logBegin, Event.acceptCall, Event.logOnionStream, Event.tlsCall,
      Event.logTlsStream, Event.serveCall, Event.logServeError], HandleOutcome.ok)

/-- `handle_stream_request` (lines 89-129): match on the request; a `Begin`
whose port passes the gate runs the accepted pipeline, everything else (a
`Begin` failing the guard included) takes the default reject arm. -/
def handle_stream_request (req : IncomingStreamRequest) (env : ConnEnv) :
    List Event × HandleOutcome :=
  match req with
  | .begin p =>
    if port_gate p then
      (Event.gateEval true :: (accepted_pipeline env).1, (accepted_pipeline env).2)
    else
      (Event.gateEval false :: (reject_path env).1, (reject_path env).2)
  | _ => reject_path env

/-- How the spawned task ends: `handle_stream_request` returned `Ok` and the
closure did nothing; it returned `Err` and the closure logged it with the
request descriptor wrapped in `sensitive` (line 79); or it panicked and the
panic was caught at the tokio task boundary. -/
inductive TaskEnd where
  | completedOk
  | completedErrLogged
  | panickedAt (site : PanicSite)
deriving DecidableEq, Repr

/-- Everything observable about one spawned connection task: the events of its
pipeline, whether the sensitive-redacted error log of line 79 was emitted, and
how the task ended. -/
structure TaskResult where
  events : List Event
  sensitiveErrorLogged : Bool
  final : TaskEnd
deriving DecidableEq, Repr

/-- The closure spawned on line 70: clone the request, run
`handle_stream_request`, log an `Err` result with `sensitive(request)`;
a panic ends the task and is caught at the task boundary, so the match on the
result never runs for it. -/
def connection_task (req : IncomingStreamRequest) (env : ConnEnv) : TaskResult :=
  match handle_stream_request req env with
  | (evs, HandleOutcome.ok) => ⟨evs, false, TaskEnd.completedOk⟩
  | (evs, HandleOutcome.errShutdown) => ⟨evs, true, TaskEnd.completedErrLogged⟩
  | (evs, HandleOutcome.panicked s) => ⟨evs, false, TaskEnd.panickedAt s⟩

/-- One element of the transport source's sequence: the incoming request and
the outcomes its environment will give the fallible calls. -/
abbrev Conn := IncomingStreamRequest × ConnEnv

/-- The task spawned for one pulled stream request. -/
def taskOf (c : Conn) : TaskResult :=
  connection_task c.1 c.2

/-- Events the dispatcher loop task itself performs while pulling the
sequence: per request, the `received connection` log (line 68) and the
`tokio::spawn` (line 70). Everything else happens inside spawned tasks. -/
def loop_pull_events (reqs : List Conn) : List Event :=
  (reqs.map (fun _ => [Event.logReceived, Event.spawnTask])).flatten

/-- The observable result of `main`'s dispatcher section (lines 62-87):
the events performed on the loop task, and the results of the spawned
per-connection tasks. -/
structure DispatcherRun where
  loopEvents : List Event
  tasks : List TaskResult
deriving DecidableEq, Repr

/-- The `while let` loop of lines 62-83 followed by `drop(service)` (line 85)
and the exit log (line 86): each pulled request is logged and spawned; the
loop body contains no early exit and no `?`, and a panic inside a spawned task
is caught by tokio at that task's boundary, so the loop always reaches the end
of the sequence; the spawned tasks run independently, each producing its own
`TaskResult`. -/
def dispatcher_run (reqs : List Conn) : DispatcherRun :=
  { loopEvents := loop_pull_events reqs ++ [Event.dropService, Event.logExited]
    tasks := reqs.map taskOf }

/-- Every event the loop task performs while the sequence is live is a
`received connection` log or a spawn. -/
lemma mem_loop_pull_events {e : Event} {reqs : List Conn}
    (h : e ∈ loop_pull_events reqs) :
    e = Event.logReceived ∨ e = Event.spawnTask := by
  rw [loop_pull_events, List.mem_flatten] at h
  obtain ⟨l, hl, he⟩ := h
  obtain ⟨c, _, rfl⟩ := List.mem_map.mp hl
  simpa using he

/-- The port gate evaluates to false exactly on ports outside {80, 443}. -/
lemma port_gate_eq_false_of_ne {p : Nat} (h80 : p ≠ 80) (h443 : p ≠ 443) :
    port_gate p = false := by
  simp only [port_gate, Bool.or_eq_false_iff]
  exact ⟨beq_eq_false_iff_ne.mpr h80, beq_eq_false_iff_ne.mpr h443⟩

/-- Claim C2: a stream request declaring a destination port outside {80, 443}
fails the port gate, and its pipeline invokes `shutdown_circuit` (the reject
operation) exactly once and `accept` never, with no TLS handshake and no HTTP
serving activity. -/
theorem C2_offport_rejected (p : Nat) (env : ConnEnv)
    (h80 : p ≠ 80) (h443 : p ≠ 443) :
    port_gate p = false ∧
    (handle_stream_request (IncomingStreamRequest.begin p) env).1.count Event.rejectCall = 1 ∧
    (handle_stream_request (IncomingStreamRequest.begin p) env).1.count Event.acceptCall = 0 ∧
    Event.tlsCall ∉ (handle_stream_request (IncomingStreamRequest.begin p) env).1 ∧
    Event.serveCall ∉ (handle_stream_request (IncomingStreamRequest.begin p) env).1 := by
  obtain ⟨a, t, s, d⟩ := env
  have hg : port_gate p = false := port_gate_eq_false_of_ne h80 h443
  refine ⟨hg, ?_, ?_, ?_, ?_⟩ <;>
  · simp only [handle_stream_request]
    rw [hg]
    cases a <;> cases t <;> cases s <;> cases d <;> decide

/-- Witness for C2: port 8080 in an all-succeeding environment. -/
theorem C2_offport_rejected_witness :
    port_gate 8080 = false ∧
    (handle_stream_request (IncomingStreamRequest.begin 8080) ⟨true, true, true, true⟩).1.count Event.rejectCall = 1 ∧
    (handle_stream_request (IncomingStreamRequest.begin 8080) ⟨true, true, true, true⟩).1.count Event.acceptCall = 0 ∧
    Event.tlsCall ∉ (handle_stream_request (IncomingStreamRequest.begin 8080) ⟨true, true, true, true⟩).1 ∧
    Event.serveCall ∉ (handle_stream_request (IncomingStreamRequest.begin 8080) ⟨true, true, true, true⟩).1 :=
  C2_offport_rejected 8080 ⟨true, true, true, true⟩ (by decide) (by decide)

/-- Claim C3: a stream request declaring port 80 or 443 passes the port gate,
and its pipeline invokes `accept` exactly once and `shutdown_circuit` never,
whatever outcomes the environment produces. -/
theorem C3_onport_accepted (p : Nat) (env : ConnEnv) (h : p = 80 ∨ p = 443) :
    port_gate p = true ∧
    (handle_stream_request (IncomingStreamRequest.begin p) env).1.count Event.acceptCall = 1 ∧
    (handle_stream_request (IncomingStreamRequest.begin p) env).1.count Event.rejectCall = 0 := by
  obtain ⟨a, t, s, d⟩ := env
  rcases h with rfl | rfl <;> cases a <;> cases t <;> cases s <;> cases d <;> decide

/-- Witness for C3: port 443 in an environment whose TLS handshake fails. -/
theorem C3_onport_accepted_witness :
    port_gate 443 = true ∧
    (handle_stream_request (IncomingStreamRequest.begin 443) ⟨true, false, true, true⟩).1.count Event.acceptCall = 1 ∧
    (handle_stream_request (IncomingStreamRequest.begin 443) ⟨true, false, true, true⟩).1.count Event.rejectCall = 0 :=
  C3_onport_accepted 443 ⟨true, false, true, true⟩ (Or.inr rfl)

/-- Claim C4: every stream request's pipeline invokes exactly one of `accept`
and `shutdown_circuit` (the reject operation) — never zero, never both — in
every environment, including the ones where the chosen operation then fails. -/
theorem C4_exactly_one_terminal (req : IncomingStreamRequest) (env : ConnEnv) :
    (handle_stream_request req env).1.count Event.acceptCall
      + (handle_stream_request req env).1.count Event.rejectCall = 1 := by
  obtain ⟨a, t, s, d⟩ := env
  cases req with
  | begin p =>
    by_cases hg : port_gate p = true
    · simp only [handle_stream_request]
      rw [hg]
      cases a <;> cases t <;> cases s <;> cases d <;> decide
    · simp only [handle_stream_request]
      rw [Bool.not_eq_true] at hg
      rw [hg]
      cases a <;> cases t <;> cases s <;> cases d <;> decide
  | beginDir => cases a <;> cases t <;> cases s <;> cases d <;> decide
  | other => cases a <;> cases t <;> cases s <;> cases d <;> decide

/-- Whether a request is a `Begin` at all (matches the head constructor of the
guarded arm on line 91, ignoring the port guard). -/
def is_begin : IncomingStreamRequest → Bool
  | .begin _ => true
  | _ => false

/-- Claim C9: a stream request that is not a `Begin` (a directory request
included) takes the default reject arm (`shutdown_circuit`) whatever its
content, and the TLS handshake and HTTP serving stages are reachable only from
a `Begin` request declaring port 80 or 443. -/
theorem C9_only_begin_reaches_tls :
    (∀ req env, is_begin req = false →
      handle_stream_request req env = reject_path env) ∧
    (∀ req env, Event.tlsCall ∈ (handle_stream_request req env).1 ∨
        Event.serveCall ∈ (handle_stream_request req env).1 →
      ∃ p, req = IncomingStreamRequest.begin p ∧ port_gate p = true) := by
  constructor
  · intro req env h
    cases req with
    | begin p => simp [is_begin] at h
    | beginDir => rfl
    | other => rfl
  · intro req env h
    cases req with
    | begin p =>
      by_cases hg : port_gate p = true
      · exact ⟨p, rfl, hg⟩
      · exfalso
        rw [Bool.not_eq_true] at hg
        simp only [handle_stream_request] at h
        rw [hg] at h
        obtain ⟨a, t, s, d⟩ := env
        cases a <;> cases t <;> cases s <;> cases d <;> revert h <;> decide
    | beginDir =>
      exfalso
      obtain ⟨a, t, s, d⟩ := env
      cases a <;> cases t <;> cases s <;> cases d <;> revert h <;> decide
    | other =>
      exfalso
      obtain ⟨a, t, s, d⟩ := env
      cases a <;> cases t <;> cases s <;> cases d <;> revert h <;> decide

/-- Witness for C9: a directory request is rejected, and the port-80 `Begin`
that does reach TLS satisfies the gate. -/
theorem C9_only_begin_reaches_tls_witness :
    handle_stream_request IncomingStreamRequest.beginDir ⟨true, true, true, true⟩
      = reject_path ⟨true, true, true, true⟩ ∧
    (∃ p, IncomingStreamRequest.begin 80 = IncomingStreamRequest.begin p ∧
      port_gate p = true) :=
  ⟨C9_only_begin_reaches_tls.1 IncomingStreamRequest.beginDir ⟨true, true, true, true⟩
      (by decide),
    C9_only_begin_reaches_tls.2 (IncomingStreamRequest.begin 80) ⟨true, true, true, true⟩
      (Or.inl (by decide))⟩

/-- Claim C10: `handle_stream_request` returns `Err` exactly when the reject
arm's `shutdown_circuit` fails; a serve failure is logged inside the function
and the function still returns `Ok`; hence the spawned closure's
sensitive-redacted error log fires exactly on a shutdown failure and never on
a serve failure. -/
theorem C10_err_only_from_shutdown :
    (∀ req env, (handle_stream_request req env).2 = HandleOutcome.errShutdown ↔
      admitted req = false ∧ env.shutdownOk = false) ∧
    (∀ req env, admitted req = true → env.acceptOk = true → env.tlsOk = true →
        env.serveOk = false →
      (handle_stream_request req env).2 = HandleOutcome.ok ∧
      Event.logServeError ∈ (handle_stream_request req env).1) ∧
    (∀ req env, (connection_task req env).sensitiveErrorLogged = true ↔
      (handle_stream_request req env).2 = HandleOutcome.errShutdown) := by
  refine ⟨?_, ?_, ?_⟩
  · intro req env
    obtain ⟨a, t, s, d⟩ := env
    cases req with
    | begin p =>
      by_cases hg : port_gate p = true
      · simp only [handle_stream_request, admitted]
        rw [hg]
        cases a <;> cases t <;> cases s <;> cases d <;> decide
      · rw [Bool.not_eq_true] at hg
        simp only [handle_stream_request, admitted]
        rw [hg]
        cases a <;> cases t <;> cases s <;> cases d <;> decide
    | beginDir => cases a <;> cases t <;> cases s <;> cases d <;> decide
    | other => cases a <;> cases t <;> cases s <;> cases d <;> decide
  · intro req env hadm ha ht hs
    obtain ⟨a, t, s, d⟩ := env
    cases req with
    | begin p =>
      simp only [admitted] at hadm
      simp only at ha ht hs
      subst ha; subst ht; subst hs
      simp only [handle_stream_request]
      rw [hadm]
      cases d <;> decide
    | beginDir => exact absurd hadm (by decide)
    | other => exact absurd hadm (by decide)
  · intro req env
    obtain ⟨a, t, s, d⟩ := env
    cases req with
    | begin p =>
      by_cases hg : port_gate p = true
      · simp only [connection_task, handle_stream_request]
        rw [hg]
        cases a <;> cases t <;> cases s <;> cases d <;> decide
      · rw [Bool.not_eq_true] at hg
        simp only [connection_task, handle_stream_request]
        rw [hg]
        cases a <;> cases t <;> cases s <;> cases d <;> decide
    | beginDir => cases a <;> cases t <;> cases s <;> cases d <;> decide
    | other => cases a <;> cases t <;> cases s <;> cases d <;> decide

/-- Witness for C10: a failing `shutdown_circuit` yields the `Err` return and
the sensitive log, and a failing serve still yields `Ok` with the plain serve
error log. -/
theorem C10_err_only_from_shutdown_witness :
    (handle_stream_request IncomingStreamRequest.other ⟨true, true, true, false⟩).2
      = HandleOutcome.errShutdown ∧
    ((handle_stream_request (IncomingStreamRequest.begin 443) ⟨true, true, false, true⟩).2
        = HandleOutcome.ok ∧
      Event.logServeError ∈
        (handle_stream_request (IncomingStreamRequest.begin 443) ⟨true, true, false, true⟩).1) ∧
    (connection_task IncomingStreamRequest.other ⟨true, true, true, false⟩).sensitiveErrorLogged
      = true :=
  ⟨(C10_err_only_from_shutdown.1 IncomingStreamRequest.other ⟨true, true, true, false⟩).mpr
      ⟨by decide, rfl⟩,
    C10_err_only_from_shutdown.2.1 (IncomingStreamRequest.begin 443) ⟨true, true, false, true⟩
      (by decide) rfl rfl rfl,
    (C10_err_only_from_shutdown.2.2 IncomingStreamRequest.other ⟨true, true, true, false⟩).mpr
      ((C10_err_only_from_shutdown.1 IncomingStreamRequest.other ⟨true, true, true, false⟩).mpr
        ⟨by decide, rfl⟩)⟩

/-- Environment in which every external call succeeds. -/
def envAllOk : ConnEnv := ⟨true, true, true, true⟩

/-- Environment whose TLS handshake fails. -/
def envTlsFail : ConnEnv := ⟨true, false, true, true⟩

/-- Environment whose transport `accept` fails. -/
def envAcceptFail : ConnEnv := ⟨false, true, true, true⟩

/-- Every event performed on the dispatcher loop task is a receive log, a
spawn, the service drop, or the exit log. -/
lemma loopEvents_cases {e : Event} {reqs : List Conn}
    (h : e ∈ (dispatcher_run reqs).loopEvents) :
    e = Event.logReceived ∨ e = Event.spawnTask ∨
    e = Event.dropService ∨ e = Event.logExited := by
  rcases List.mem_append.mp h with h | h
  · rcases mem_loop_pull_events h with h | h
    · exact Or.inl h
    · exact Or.inr (Or.inl h)
  · simp only [List.mem_cons, List.not_mem_nil, or_false] at h
    rcases h with h | h
    · exact Or.inr (Or.inr (Or.inl h))
    · exact Or.inr (Or.inr (Or.inr h))

/-- Claim C1: per-connection failures are contained in that connection's own
task: the dispatcher's task results are exactly the independent per-connection
runs and the loop reaches its normal end (service drop and exit log) whatever
the environments do; in particular a connection whose TLS handshake fails ends
in a panic caught at its own task boundary, while every sibling's result and
the loop's completion are unchanged. -/
theorem C1_failure_isolation (pre post : List Conn) (p : Nat) (env : ConnEnv)
    (hg : port_gate p = true) (ha : env.acceptOk = true) (ht : env.tlsOk = false) :
    (taskOf (IncomingStreamRequest.begin p, env)).final
      = TaskEnd.panickedAt PanicSite.tlsUnwrap ∧
    (dispatcher_run (pre ++ (IncomingStreamRequest.begin p, env) :: post)).tasks
      = pre.map taskOf ++ taskOf (IncomingStreamRequest.begin p, env) :: post.map taskOf ∧
    (dispatcher_run (pre ++ (IncomingStreamRequest.begin p, env) :: post)).loopEvents
      = loop_pull_events (pre ++ (IncomingStreamRequest.begin p, env) :: post)
        ++ [Event.dropService, Event.logExited] := by
  refine ⟨?_, ?_, rfl⟩
  · obtain ⟨a, t, s, d⟩ := env
    simp only at ha ht
    subst ha; subst ht
    simp only [taskOf, connection_task, handle_stream_request]
    rw [hg]
    cases s <;> cases d <;> decide
  · simp [dispatcher_run]

/-- Witness for C1: a TLS-failing port-443 connection followed by a healthy
port-80 connection; the sibling's result is its failure-free run. -/
theorem C1_failure_isolation_witness :
    (taskOf (IncomingStreamRequest.begin 443, envTlsFail)).final
      = TaskEnd.panickedAt PanicSite.tlsUnwrap ∧
    (dispatcher_run ([] ++ (IncomingStreamRequest.begin 443, envTlsFail)
        :: [(IncomingStreamRequest.begin 80, envAllOk)])).tasks
      = List.map taskOf [] ++ taskOf (IncomingStreamRequest.begin 443, envTlsFail)
        :: List.map taskOf [(IncomingStreamRequest.begin 80, envAllOk)] ∧
    (dispatcher_run ([] ++ (IncomingStreamRequest.begin 443, envTlsFail)
        :: [(IncomingStreamRequest.begin 80, envAllOk)])).loopEvents
      = loop_pull_events ([] ++ (IncomingStreamRequest.begin 443, envTlsFail)
          :: [(IncomingStreamRequest.begin 80, envAllOk)])
        ++ [Event.dropService, Event.logExited] :=
  C1_failure_isolation [] [(IncomingStreamRequest.begin 80, envAllOk)] 443 envTlsFail
    (by decide) rfl rfl

/-- The single-request input (declared port 8080) used against claim C7. -/
def exC7 : List Conn := [(IncomingStreamRequest.begin 8080, envAllOk)]

/-- Counterexample to claim C7 as stated: for the declared-port-8080 request,
neither the gate evaluation nor the rejection appears among the dispatcher
loop task's events — the loop only logs the arrival and spawns — and both
appear instead in the spawned task's events, so the gate decision is not
evaluated synchronously on the dispatcher loop task. -/
theorem C7_counterexample :
    Event.gateEval false ∉ (dispatcher_run exC7).loopEvents ∧
    Event.rejectCall ∉ (dispatcher_run exC7).loopEvents ∧
    (dispatcher_run exC7).tasks.map TaskResult.events
      = [[Event.gateEval false, Event.logRejecting, Event.rejectCall]] ∧
    (dispatcher_run exC7).loopEvents
      = [Event.logReceived, Event.spawnTask, Event.dropService, Event.logExited] := by
  decide

/-- Claim C7 amended: the dispatcher spawns a connection task for every pulled
stream request before any gating, so the port-gate decision and any rejection
happen inside that request's spawned task and never on the dispatcher loop
task, whose own events are only the per-request receive logs and spawns
followed by the shutdown pair; hence rejections carry no arrival-order
guarantee. -/
theorem C7_gate_runs_in_spawned_task (reqs : List Conn) :
    (∀ b, Event.gateEval b ∉ (dispatcher_run reqs).loopEvents) ∧
    Event.rejectCall ∉ (dispatcher_run reqs).loopEvents ∧
    Event.acceptCall ∉ (dispatcher_run reqs).loopEvents ∧
    (dispatcher_run reqs).tasks = reqs.map taskOf ∧
    (∀ p env, Event.gateEval (port_gate p)
      ∈ (taskOf (IncomingStreamRequest.begin p, env)).events) := by
  refine ⟨?_, ?_, ?_, rfl, ?_⟩
  · intro b h
    rcases loopEvents_cases h with h | h | h | h <;> exact Event.noConfusion h
  · intro h
    rcases loopEvents_cases h with h | h | h | h <;> exact Event.noConfusion h
  · intro h
    rcases loopEvents_cases h with h | h | h | h <;> exact Event.noConfusion h
  · intro p env
    obtain ⟨a, t, s, d⟩ := env
    by_cases hg : port_gate p = true
    · rw [hg]
      simp only [taskOf, connection_task, handle_stream_request]
      rw [hg]
      cases a <;> cases t <;> cases s <;> cases d <;> decide
    · rw [Bool.not_eq_true] at hg
      rw [hg]
      simp only [taskOf, connection_task, handle_stream_request]
      rw [hg]
      cases a <;> cases t <;> cases s <;> cases d <;> decide

/-- Claim C8: when the stream-request sequence ends, the loop's own event list
is exactly the per-request receive/spawn pairs followed by one service drop
and the exit log: the service handle is released exactly once, only after the
sequence is exhausted; the loop task performs no gate evaluation, accept, or
reject at any point; and the spawned tasks' results are the independent
per-connection runs, unaffected by the loop's return. -/
theorem C8_clean_shutdown (reqs : List Conn) :
    (dispatcher_run reqs).loopEvents
      = loop_pull_events reqs ++ [Event.dropService, Event.logExited] ∧
    (dispatcher_run reqs).loopEvents.count Event.dropService = 1 ∧
    Event.dropService ∉ loop_pull_events reqs ∧
    (∀ b, Event.gateEval b ∉ (dispatcher_run reqs).loopEvents) ∧
    Event.acceptCall ∉ (dispatcher_run reqs).loopEvents ∧
    Event.rejectCall ∉ (dispatcher_run reqs).loopEvents ∧
    (dispatcher_run reqs).tasks = reqs.map taskOf := by
  have hpull : Event.dropService ∉ loop_pull_events reqs := by
    intro h
    rcases mem_loop_pull_events h with h | h <;> exact Event.noConfusion h
  refine ⟨rfl, ?_, hpull, ?_, ?_, ?_, rfl⟩
  · show (loop_pull_events reqs ++ [Event.dropService, Event.logExited]).count
      Event.dropService = 1
    rw [List.count_append, List.count_eq_zero.mpr hpull]
    decide
  · intro b h
    rcases loopEvents_cases h with h | h | h | h <;> exact Event.noConfusion h
  · intro h
    rcases loopEvents_cases h with h | h | h | h <;> exact Event.noConfusion h
  · intro h
    rcases loopEvents_cases h with h | h | h | h <;> exact Event.noConfusion h

/-- Counterexample to claim C5 as stated: for a port-443 connection whose TLS
handshake fails, the pipeline panics at the TLS unwrap and the spawned
closure's sensitive-redacted error log is never emitted, so the failure is not
logged with the request descriptor marked sensitive. -/
theorem C5_counterexample :
    (handle_stream_request (IncomingStreamRequest.begin 443) envTlsFail).2
      = HandleOutcome.panicked PanicSite.tlsUnwrap ∧
    (connection_task (IncomingStreamRequest.begin 443) envTlsFail).sensitiveErrorLogged
      = false := by
  decide

/-- Claim C5 amended: an admitted connection whose TLS handshake fails ends in
a panic at the TLS unwrap that is caught at its own task boundary: the
connection is abandoned before any HTTP serving and sibling tasks' results are
unchanged, but no sensitive-redacted failure log is produced, because the
panic bypasses the `Err`-logging branch of the spawned closure. -/
theorem C5_tls_failure_panics_unlogged (pre post : List Conn) (p : Nat) (env : ConnEnv)
    (hg : port_gate p = true) (ha : env.acceptOk = true) (ht : env.tlsOk = false) :
    (taskOf (IncomingStreamRequest.begin p, env)).final
      = TaskEnd.panickedAt PanicSite.tlsUnwrap ∧
    (taskOf (IncomingStreamRequest.begin p, env)).sensitiveErrorLogged = false ∧
    Event.serveCall ∉ (taskOf (IncomingStreamRequest.begin p, env)).events ∧
    Event.logServeError ∉ (taskOf (IncomingStreamRequest.begin p, env)).events ∧
    (dispatcher_run (pre ++ (IncomingStreamRequest.begin p, env) :: post)).tasks
      = pre.map taskOf ++ taskOf (IncomingStreamRequest.begin p, env) :: post.map taskOf := by
  obtain ⟨a, t, s, d⟩ := env
  simp only at ha ht
  subst ha; subst ht
  refine ⟨?_, ?_, ?_, ?_, by simp [dispatcher_run]⟩ <;>
  · simp only [taskOf, connection_task, handle_stream_request]
    rw [hg]
    cases s <;> cases d <;> decide

/-- Witness for the amended C5: port 443, TLS failure, one healthy sibling. -/
theorem C5_tls_failure_panics_unlogged_witness :
    (taskOf (IncomingStreamRequest.begin 443, envTlsFail)).final
      = TaskEnd.panickedAt PanicSite.tlsUnwrap ∧
    (taskOf (IncomingStreamRequest.begin 443, envTlsFail)).sensitiveErrorLogged = false ∧
    Event.serveCall ∉ (taskOf (IncomingStreamRequest.begin 443, envTlsFail)).events ∧
    Event.logServeError ∉ (taskOf (IncomingStreamRequest.begin 443, envTlsFail)).events ∧
    (dispatcher_run ([(IncomingStreamRequest.begin 80, envAllOk)]
        ++ (IncomingStreamRequest.begin 443, envTlsFail) :: [])).tasks
      = List.map taskOf [(IncomingStreamRequest.begin 80, envAllOk)]
        ++ taskOf (IncomingStreamRequest.begin 443, envTlsFail) :: List.map taskOf [] :=
  C5_tls_failure_panics_unlogged [(IncomingStreamRequest.begin 80, envAllOk)] [] 443
    envTlsFail (by decide) rfl rfl

/-- Counterexample to claim C6 as stated: for an admitted port-80 connection
whose `accept` fails, the pipeline's events are only the gate evaluation, the
begin log and the accept invocation — no log of the failure is emitted by the
program — and the task ends by panicking at the accept unwrap. -/
theorem C6_counterexample :
    handle_stream_request (IncomingStreamRequest.begin 80) envAcceptFail
      = ([Event.gateEval true, Event.logBegin, Event.acceptCall],
        HandleOutcome.panicked PanicSite.acceptUnwrap) ∧
    (connection_task (IncomingStreamRequest.begin 80) envAcceptFail).sensitiveErrorLogged
      = false := by
  decide

/-- Claim C6 amended: an admitted connection whose `accept` fails ends in a
panic at the accept unwrap, caught at its own task boundary: the program emits
no log of the failure (its events stop at the accept invocation and the
sensitive-redacted log stays silent), the candidate connection is abandoned
before TLS or serving, and the dispatcher loop still runs every other
request's task and reaches its normal end. -/
theorem C6_accept_failure_panics (pre post : List Conn) (p : Nat) (env : ConnEnv)
    (hg : port_gate p = true) (ha : env.acceptOk = false) :
    (taskOf (IncomingStreamRequest.begin p, env)).final
      = TaskEnd.panickedAt PanicSite.acceptUnwrap ∧
    (taskOf (IncomingStreamRequest.begin p, env)).events
      = [Event.gateEval true, Event.logBegin, Event.acceptCall] ∧
    (taskOf (IncomingStreamRequest.begin p, env)).sensitiveErrorLogged = false ∧
    (dispatcher_run (pre ++ (IncomingStreamRequest.begin p, env) :: post)).tasks
      = pre.map taskOf ++ taskOf (IncomingStreamRequest.begin p, env) :: post.map taskOf ∧
    (dispatcher_run (pre ++ (IncomingStreamRequest.begin p, env) :: post)).loopEvents
      = loop_pull_events (pre ++ (IncomingStreamRequest.begin p, env) :: post)
        ++ [Event.dropService, Event.logExited] := by
  obtain ⟨a, t, s, d⟩ := env
  simp only at ha
  subst ha
  refine ⟨?_, ?_, ?_, by simp [dispatcher_run], rfl⟩ <;>
  · simp only [taskOf, connection_task, handle_stream_request]
    rw [hg]
    cases t <;> cases s <;> cases d <;> decide

/-- Witness for the amended C6: port 80, failing accept, one healthy sibling
after it. -/
theorem C6_accept_failure_panics_witness :
    (taskOf (IncomingStreamRequest.begin 80, envAcceptFail)).final
      = TaskEnd.panickedAt PanicSite.acceptUnwrap ∧
    (taskOf (IncomingStreamRequest.begin 80, envAcceptFail)).events
      = [Event.gateEval true, Event.logBegin, Event.acceptCall] ∧
    (taskOf (IncomingStreamRequest.begin 80, envAcceptFail)).sensitiveErrorLogged = false ∧
    (dispatcher_run ([] ++ (IncomingStreamRequest.begin 80, envAcceptFail)
        :: [(IncomingStreamRequest.begin 443, envAllOk)])).tasks
      = List.map taskOf [] ++ taskOf (IncomingStreamRequest.begin 80, envAcceptFail)
        :: List.map taskOf [(IncomingStreamRequest.begin 443, envAllOk)] ∧
    (dispatcher_run ([] ++ (IncomingStreamRequest.begin 80, envAcceptFail)
        :: [(IncomingStreamRequest.begin 443, envAllOk)])).loopEvents
      = loop_pull_events ([] ++ (IncomingStreamRequest.begin 80, envAcceptFail)
          :: [(IncomingStreamRequest.begin 443, envAllOk)])
        ++ [Event.dropService, Event.logExited] :=
  C6_accept_failure_panics [] [(IncomingStreamRequest.begin 443, envAllOk)] 80
    envAcceptFail (by decide) rfl

end ArtiTls
